import Mathlib

/-!
Shallow embedding of the live-polling backend (src/server.js, with the
transport-only duplicate src/api/index.js sharing the same engine logic).

All session state lives in module-level mutables (polls Map, pollHistory,
activeParticipants Map, chatMessages, kickedOutStudents Set, currentPoll
reference).  JavaScript Maps/objects with string keys are modelled as
insertion-ordered association lists with unique keys (objGet / objSet
mirror obj[k] reads and obj[k] = v writes: overwrite in place when the
key is present, append otherwise).  The JS Set is a duplicate-free list.
`currentPoll` holds a reference to an object stored in the polls Map; we
model it as the poll id and read through the map, which reproduces the
aliasing.  String timestamps (startTime/endTime/createdAt, response
timestamps, joinedAt) are wall-clock strings irrelevant to every claim
and are omitted; numbers that the code clamps or decrements are Int.
-/

namespace LivePolling

/-- JS String.prototype.trim: strip whitespace from both ends, modelled
character-wise over the string's character list. -/
def jsTrim (s : String) : String :=
  ⟨((s.data.dropWhile Char.isWhitespace).reverse.dropWhile Char.isWhitespace).reverse⟩

/-- JS object / Map lookup obj[k] (first and, with unique keys, only hit). -/
def objGet {β : Type} (k : String) : List (String × β) → Option β
  | [] => none
  | (k₁, v) :: rest => if k₁ = k then some v else objGet k rest

/-- JS object / Map write obj[k] = v: overwrite in place, else append. -/
def objSet {β : Type} (k : String) (v : β) : List (String × β) → List (String × β)
  | [] => [(k, v)]
  | (k₁, v₁) :: rest => if k₁ = k then (k₁, v) :: rest else (k₁, v₁) :: objSet k v rest

/-- JS Map.delete — removes the entry for a key. -/
def objDelete {β : Type} (k : String) : List (String × β) → List (String × β)
  | [] => []
  | (k₁, v₁) :: rest => if k₁ = k then rest else (k₁, v₁) :: objDelete k rest

/-- JS Set.add — no duplicate is created. -/
def setAdd (k : String) (l : List String) : List String :=
  if k ∈ l then l else l ++ [k]

/-- JS array indexing arr[i] with a possibly out-of-range signed index:
an out-of-range read yields undefined, modelled as none. -/
def jsIndex {α : Type} (l : List α) (i : Int) : Option α :=
  if h : 0 ≤ i ∧ i.toNat < l.length then some (l.get ⟨i.toNat, h.2⟩) else none

/-- JS Math.round for the non-negative value count / total * 100
(round half away from zero = floor(x + 1/2) here). -/
def jsRound100 (count total : Nat) : Nat :=
  (200 * count + total) / (2 * total)

/-- One tally entry: poll.results[option] = { count, participants }. -/
structure Tally where
  count : Nat
  participants : List (String × String)
  deriving DecidableEq, Repr

/-- poll.responses[studentId] (timestamp string omitted). -/
structure Response where
  studentId : String
  studentName : String
  selectedOption : String
  isCorrect : Bool
  deriving DecidableEq, Repr

/-- finalResults[option] = { count, percentage, isCorrect } (endPoll). -/
structure FinalResult where
  count : Nat
  percentage : Nat
  isCorrect : Bool
  deriving DecidableEq, Repr

/-- poll.summary built by endPoll. -/
structure Summary where
  totalResponses : Nat
  correctResponses : Nat
  incorrectResponses : Nat
  correctPercentage : Nat
  incorrectPercentage : Int
  correctAnswer : Option String
  deriving DecidableEq, Repr

/-- The poll object built in POST /api/poll/create.  The extra `ended`
field is a ghost marker recording that endPoll has run since the last
start (the code has no state enum; Draft and Ended both read isActive =
false, and the marker lets the lifecycle claims speak of Ended). -/
structure Poll where
  id : String
  question : String
  options : List String
  duration : Int
  correctAnswer : Int
  isActive : Bool
  responses : List (String × Response)
  results : List (String × Tally)
  timeLeft : Int
  teacherId : String
  teacherName : String
  finalResults : Option (List (String × FinalResult))
  summary : Option Summary
  ended : Bool
  deriving DecidableEq, Repr

/-- activeParticipants.set(studentId, {...}) value (joinedAt omitted). -/
structure Participant where
  id : String
  name : String
  role : String
  deriving DecidableEq, Repr

/-- A chat message (uuid and timestamp omitted). -/
structure ChatMessage where
  message : String
  senderName : String
  senderRole : String
  senderId : String
  deriving DecidableEq, Repr

/-- The module-level mutable state of server.js. -/
structure ServerState where
  polls : List (String × Poll)
  pollHistory : List Poll
  activeParticipants : List (String × Participant)
  chatMessages : List ChatMessage
  kickedOutStudents : List String
  currentPoll : Option String
  deriving DecidableEq, Repr

/-- State at process start: every store empty, currentPoll = null. -/
def initialState : ServerState :=
  { polls := [], pollHistory := [], activeParticipants := [],
    chatMessages := [], kickedOutStudents := [], currentPoll := none }

/-- The error taxonomy, by HTTP status: 400 ValidationError,
409 ConflictError, 403 ForbiddenError, 404 NotFoundError. -/
inductive ApiError where
  | ValidationError
  | ConflictError
  | ForbiddenError
  | NotFoundError
  deriving DecidableEq, Repr

/-- currentPoll && currentPoll.isActive (reading through the alias). -/
def currentPollActive (s : ServerState) : Bool :=
  match s.currentPoll with
  | none => false
  | some pid =>
    match objGet pid s.polls with
    | some poll => poll.isActive
    | none => false

/-- POST /api/poll/create.  The uuid assigned to the poll is external
nondeterminism, passed in as `pollId`; duration and correctAnswer have
JS defaults 60 and 0 supplied by the caller.  Mirrors server.js lines
172-226: validation on the raw request, active-current-poll conflict
check, then the poll object literal (question trimmed; options trimmed
and filtered of empties; duration clamped to [10,300]; correctAnswer
clamped against the RAW options length; timeLeft set to the raw
duration). -/
def createPoll (question : String) (options : List String) (duration : Int)
    (teacherId teacherName : String) (correctAnswer : Int) (pollId : String)
    (s : ServerState) : Except ApiError Poll × ServerState :=
  if question = "" ∨ options.length < 2 then
    (.error .ValidationError, s)
  else if teacherId = "" ∨ teacherName = "" then
    (.error .ValidationError, s)
  else if currentPollActive s then
    (.error .ConflictError, s)
  else
    let poll : Poll :=
      { id := pollId
        question := jsTrim question
        options := (options.map jsTrim).filter (fun o => o.length > 0)
        duration := min (max duration 10) 300
        correctAnswer := max 0 (min correctAnswer ((options.length : Int) - 1))
        isActive := false
        responses := []
        results := []
        timeLeft := duration
        teacherId := teacherId
        teacherName := teacherName
        finalResults := none
        summary := none
        ended := false }
    (.ok poll, { s with polls := objSet pollId poll s.polls, currentPoll := some pollId })

/-- POST /api/poll/:pollId/start (server.js lines 229-292, minus the
timer installation, modelled separately by `tick`): 404 if unknown,
403 if the requester is not the creator, 409 if already active; on
success set isActive, reset timeLeft/responses, initialize a zero tally
for every option, and clear the chat log. -/
def startPoll (pollId teacherId : String) (s : ServerState) :
    Except ApiError Poll × ServerState :=
  match objGet pollId s.polls with
  | none => (.error .NotFoundError, s)
  | some poll =>
    if poll.teacherId ≠ teacherId then
      (.error .ForbiddenError, s)
    else if poll.isActive then
      (.error .ConflictError, s)
    else
      let poll₁ : Poll :=
        { poll with
            isActive := true
            timeLeft := poll.duration
            responses := []
            results := poll.options.foldl
              (fun acc option => objSet option { count := 0, participants := [] } acc) []
            ended := false }
      (.ok poll₁,
       { s with polls := objSet pollId poll₁ s.polls, chatMessages := [] })

/-- endPoll (server.js lines 295-360) applied to one poll object:
freeze the poll, compute finalResults (first pass: counts, correctness
and running totals per option occurrence; second pass: percentages when
totalResponses > 0) and the summary, mark the ghost `ended` flag. -/
def endPollCalc (poll : Poll) : Poll :=
  let pass₁ :=
    poll.options.enum.foldl
      (fun (acc : List (String × FinalResult) × Nat × Nat) io =>
        let (fr, total, correct) := acc
        let (index, option) := io
        let count := match objGet option poll.results with
                     | some t => t.count
                     | none => 0
        let isCorrect : Bool := (index : Int) = poll.correctAnswer
        (objSet option { count := count, percentage := 0, isCorrect := isCorrect } fr,
         total + count,
         if isCorrect then correct + count else correct))
      ([], 0, 0)
  let fr₀ := pass₁.1
  let totalResponses := pass₁.2.1
  let correctResponses := pass₁.2.2
  let fr₁ :=
    if totalResponses > 0 then
      poll.options.foldl
        (fun acc option =>
          match objGet option acc with
          | some r => objSet option { r with percentage := jsRound100 r.count totalResponses } acc
          | none => acc)
        fr₀
    else fr₀
  let correctPercentage :=
    if totalResponses > 0 then jsRound100 correctResponses totalResponses else 0
  { poll with
      isActive := false
      timeLeft := 0
      finalResults := some fr₁
      summary := some
        { totalResponses := totalResponses
          correctResponses := correctResponses
          incorrectResponses := totalResponses - correctResponses
          correctPercentage := correctPercentage
          incorrectPercentage := (100 : Int) - (correctPercentage : Int)
          correctAnswer := jsIndex poll.options poll.correctAnswer }
      ended := true }

/-- endPoll on the store: update the poll in place and push it (the
history snapshot also copies the participant roster, irrelevant here)
onto pollHistory, as server.js lines 332-346. -/
def endPollState (pollId : String) (s : ServerState) : ServerState :=
  match objGet pollId s.polls with
  | none => s
  | some poll =>
    let poll₁ := endPollCalc poll
    { s with polls := objSet pollId poll₁ s.polls, pollHistory := s.pollHistory ++ [poll₁] }

/-- One timer tick (the setInterval callback in startPoll, lines
271-281): decrement timeLeft; when it reaches 0 or below, clear the
interval and run endPoll. -/
def tick (pollId : String) (s : ServerState) : ServerState :=
  match objGet pollId s.polls with
  | none => s
  | some poll =>
    let poll₁ := { poll with timeLeft := poll.timeLeft - 1 }
    let s₁ := { s with polls := objSet pollId poll₁ s.polls }
    if poll₁.timeLeft ≤ 0 then endPollState pollId s₁ else s₁

/-- POST /api/poll/:pollId/response (server.js lines 363-430): ejected
check first, then 404 / not-active 400 / invalid-option 400 / duplicate
409; on success record the Response (isCorrect by reading
options[correctAnswer], undefined when out of range), create the tally
entry if missing, increment its count and append the respondent.
Returns isCorrect. -/
def submitResponse (pollId studentId studentName selectedOption : String)
    (s : ServerState) : Except ApiError Bool × ServerState :=
  if studentId ∈ s.kickedOutStudents then
    (.error .ForbiddenError, s)
  else
    match objGet pollId s.polls with
    | none => (.error .NotFoundError, s)
    | some poll =>
      if ¬ poll.isActive then
        (.error .ValidationError, s)
      else if selectedOption ∉ poll.options then
        (.error .ValidationError, s)
      else if (objGet studentId poll.responses).isSome then
        (.error .ConflictError, s)
      else
        let isCorrect : Bool := jsIndex poll.options poll.correctAnswer = some selectedOption
        let response : Response :=
          { studentId := studentId, studentName := studentName,
            selectedOption := selectedOption, isCorrect := isCorrect }
        let prev := match objGet selectedOption poll.results with
                    | some t => t
                    | none => { count := 0, participants := [] }
        let poll₁ : Poll :=
          { poll with
              responses := objSet studentId response poll.responses
              results := objSet selectedOption
                { count := prev.count + 1
                  participants := prev.participants ++ [(studentId, studentName)] }
                poll.results }
        (.ok isCorrect, { s with polls := objSet pollId poll₁ s.polls })

/-- POST /api/participant/join (server.js lines 467-497): missing
identity 400, ejected 403, else insert/overwrite the roster entry. -/
def joinParticipant (studentId studentName : String) (s : ServerState) :
    Except ApiError Participant × ServerState :=
  if studentId = "" ∨ studentName = "" then
    (.error .ValidationError, s)
  else if studentId ∈ s.kickedOutStudents then
    (.error .ForbiddenError, s)
  else
    let p : Participant := { id := studentId, name := studentName, role := "student" }
    (.ok p, { s with activeParticipants := objSet studentId p s.activeParticipants })

/-- The joinParticipant socket handler (lines 543-580): an ejected id
only receives a kickedOut notice (returned Bool) and is not added. -/
def joinParticipantSocket (studentId studentName : String) (s : ServerState) :
    Bool × ServerState :=
  if studentId ∈ s.kickedOutStudents then
    (true, s)
  else
    let p : Participant := { id := studentId, name := studentName, role := "student" }
    (false, { s with activeParticipants := objSet studentId p s.activeParticipants })

/-- The sendMessage socket handler (lines 583-609): silently dropped for
an ejected student sender; otherwise append the trimmed message and keep
only the last 100 entries. -/
def sendMessage (message senderName senderRole senderId : String)
    (s : ServerState) : ServerState :=
  if senderRole = "student" ∧ senderId ∈ s.kickedOutStudents then s
  else
    let m : ChatMessage :=
      { message := jsTrim message, senderName := senderName,
        senderRole := senderRole, senderId := senderId }
    let msgs := s.chatMessages ++ [m]
    { s with chatMessages := if msgs.length > 100 then msgs.drop (msgs.length - 100) else msgs }

/-- The kickParticipant socket handler as run by a teacher socket
(lines 612-638): add to kickedOutStudents, delete from the roster
(socket disconnection and broadcasts are transport effects). -/
def kickParticipant (studentId : String) (s : ServerState) : ServerState :=
  { s with
      kickedOutStudents := setAdd studentId s.kickedOutStudents
      activeParticipants := objDelete studentId s.activeParticipants }

/-- A student socket disconnecting (lines 641-655): roster entry removed,
kickedOutStudents untouched. -/
def disconnectStudent (studentId : String) (s : ServerState) : ServerState :=
  { s with activeParticipants := objDelete studentId s.activeParticipants }

/-- The body GET /api/poll/current answers with: either the early return
\x7bpoll: null, message\x7d taken when currentPoll is null, or the full
record with the roster and the chat log.  (The impossible dangling-id
read also answers the early return; currentPoll always aliases a poll
registered in the Map.) -/
inductive CurrentPollView where
  | noPoll (message : String)
  | withPoll (poll : Poll) (participants : List Participant)
      (chatMessages : List ChatMessage)
  deriving DecidableEq, Repr

/-- GET /api/poll/current (server.js lines 89-105). -/
def getCurrentPoll (s : ServerState) : CurrentPollView :=
  match s.currentPoll with
  | none => .noPoll "No active poll"
  | some pid =>
    match objGet pid s.polls with
    | some poll =>
      .withPoll poll (s.activeParticipants.map Prod.snd) s.chatMessages
    | none => .noPoll "No active poll"

/-- Whether the view carries the participants and chatMessages arrays. -/
def CurrentPollView.carriesRoster : CurrentPollView → Bool
  | .noPoll _ => false
  | .withPoll _ _ _ => true

/-- Number of polls in the store whose isActive flag is true. -/
def activeCount (s : ServerState) : Nat :=
  (s.polls.filter (fun e => e.2.isActive)).length

/-- One externally triggered mutation of the server state: the commands
of the two transport surfaces plus one timer tick.  Poll ids come from
uuidv4, so a create step carries a freshness hypothesis; a tick may hit
any registered poll (the interval created at start, including stale
intervals on a restarted poll). -/
inductive Step : ServerState → ServerState → Prop where
  | create (q : String) (opts : List String) (d : Int) (tid tn : String)
      (ca : Int) (pid : String) (s : ServerState)
      (fresh : objGet pid s.polls = none) :
      Step s (createPoll q opts d tid tn ca pid s).2
  | start (pid tid : String) (s : ServerState) :
      Step s (startPoll pid tid s).2
  | submit (pid sid sname opt : String) (s : ServerState) :
      Step s (submitResponse pid sid sname opt s).2
  | timerTick (pid : String) (s : ServerState) :
      Step s (tick pid s)
  | join (sid sname : String) (s : ServerState) :
      Step s (joinParticipant sid sname s).2
  | joinSocket (sid sname : String) (s : ServerState) :
      Step s (joinParticipantSocket sid sname s).2
  | chat (msg sname srole sid : String) (s : ServerState) :
      Step s (sendMessage msg sname srole sid s)
  | kick (sid : String) (s : ServerState) :
      Step s (kickParticipant sid s)
  | disconnect (sid : String) (s : ServerState) :
      Step s (disconnectStudent sid s)

/-- States reachable from process start by any command sequence. -/
inductive Reachable : ServerState → Prop where
  | init : Reachable initialState
  | step {s s₁ : ServerState} : Reachable s → Step s s₁ → Reachable s₁

/-- Sum of the per-option tally counts of a results mapping. -/
def sumCounts (l : List (String × Tally)) : Nat :=
  (l.map (fun e => e.2.count)).sum

/-- Bookkeeping invariant of one poll object: response keys are unique
(at most one response per participant) and the tally counts sum to the
number of recorded responses. -/
def PollWF (p : Poll) : Prop :=
  (p.responses.map Prod.fst).Nodup ∧ sumCounts p.results = p.responses.length

/-- Every poll registered in the store satisfies PollWF. -/
def StateWF (s : ServerState) : Prop :=
  ∀ pid p, objGet pid s.polls = some p → PollWF p

/-- Placeholder poll used only to read a lookup known to succeed. -/
def pollDefault : Poll :=
  { id := "", question := "", options := [], duration := 0, correctAnswer := 0,
    isActive := false, responses := [], results := [], timeLeft := 0,
    teacherId := "", teacherName := "", finalResults := none, summary := none,
    ended := false }

/-!
Concrete traces used by the scenario claims.

Trace A is spec Scenario A: create a poll with options A and B, correct
answer index 0, duration 10; start it; students S1 and S2 answer A and B;
the ten timer ticks then expire it.
-/

def sA1 : ServerState := (createPoll "q" ["A", "B"] 10 "t" "T" 0 "p1" initialState).2
def sA2 : ServerState := (startPoll "p1" "t" sA1).2
def sA3 : ServerState := (submitResponse "p1" "S1" "N1" "A" sA2).2
def sA4 : ServerState := (submitResponse "p1" "S2" "N2" "B" sA3).2
def sA5 : ServerState := tick "p1" sA4
def sA6 : ServerState := tick "p1" sA5
def sA7 : ServerState := tick "p1" sA6
def sA8 : ServerState := tick "p1" sA7
def sA9 : ServerState := tick "p1" sA8
def sA10 : ServerState := tick "p1" sA9
def sA11 : ServerState := tick "p1" sA10
def sA12 : ServerState := tick "p1" sA11
def sA13 : ServerState := tick "p1" sA12
def sA14 : ServerState := tick "p1" sA13

/-- The poll p1 at the end of trace A (after expiry). -/
def pollA : Poll := (objGet "p1" sA14.polls).getD pollDefault

/-- The poll p1 after the two responses of trace A, before expiry. -/
def pollA3 : Poll := (objGet "p1" sA3.polls).getD pollDefault

/-- Trace A variant for the ejection claims: S1 (who already responded)
is kicked right after the state sA3. -/
def sAkick : ServerState := kickParticipant "S1" sA3

/-!
Trace B: two polls are created while neither is active (the second
create replaces "current" but the first stays registered), then both are
started: the store ends with two isActive polls.
-/

def sB1 : ServerState := (createPoll "q" ["A", "B"] 60 "t" "T" 0 "p1" initialState).2
def sB2 : ServerState := (createPoll "q" ["A", "B"] 60 "t" "T" 0 "p2" sB1).2
def sB3 : ServerState := (startPoll "p1" "t" sB2).2
def sB4 : ServerState := (startPoll "p2" "t" sB3).2

/-- The poll created from the request options [A, " "] (one entry blank):
the raw length-2 list passes validation, the blank is filtered out. -/
def pollC3 : Poll :=
  match (createPoll "q" ["A", " "] 60 "t" "T" 0 "p1" initialState).1 with
  | .ok p => p
  | .error _ => pollDefault

/-- The poll created from request options [A, B, " "] with requested
correctAnswer 5: clamping uses the raw length 3, giving index 2 although
only two options survive the filter. -/
def pollC6 : Poll :=
  match (createPoll "q" ["A", "B", " "] 60 "t" "T" 5 "p1" initialState).1 with
  | .ok p => p
  | .error _ => pollDefault

/-- The poll p2 aliased by currentPoll in the state sB3. -/
def pollC9 : Poll := (objGet "p2" sB3.polls).getD pollDefault

/-- The poll created with requested duration 5 and correctAnswer -1. -/
def pollC6b : Poll :=
  match (createPoll "q" ["A", "B"] 5 "t" "T" (-1) "p1" initialState).1 with
  | .ok p => p
  | .error _ => pollDefault


theorem objGet_objSet_self {β : Type} (k : String) (v : β) (l : List (String × β)) :
    objGet k (objSet k v l) = some v := by
  induction l with
  | nil => simp [objGet, objSet]
  | cons e rest ih =>
    obtain ⟨k₁, v₁⟩ := e
    by_cases h : k₁ = k <;> simp [objGet, objSet, h, ih]

theorem objGet_objSet_ne {β : Type} {k₁ k : String} (h : k₁ ≠ k) (v : β)
    (l : List (String × β)) : objGet k (objSet k₁ v l) = objGet k l := by
  induction l with
  | nil => simp [objGet, objSet, h]
  | cons e rest ih =>
    obtain ⟨k₂, v₂⟩ := e
    by_cases h₂ : k₂ = k₁
    · subst h₂
      simp [objGet, objSet, h]
    · simp [objGet, objSet, h₂, ih]

theorem mem_objSet {β : Type} {e : String × β} {k : String} {v : β}
    {l : List (String × β)} (h : e ∈ objSet k v l) : e ∈ l ∨ e = (k, v) := by
  induction l with
  | nil => simpa [objSet] using h
  | cons e₁ rest ih =>
    obtain ⟨k₁, v₁⟩ := e₁
    by_cases h₁ : k₁ = k
    · subst h₁
      simp [objSet] at h
      rcases h with h | h
      · exact Or.inr (by simp [h])
      · exact Or.inl (by simp [h])
    · simp [objSet, h₁] at h
      rcases h with h | h
      · exact Or.inl (by simp [h])
      · rcases ih h with h₂ | h₂
        · exact Or.inl (by simp [h₂])
        · exact Or.inr h₂

theorem objGet_eq_none {β : Type} {k : String} {l : List (String × β)} :
    objGet k l = none ↔ k ∉ l.map Prod.fst := by
  induction l with
  | nil => simp [objGet]
  | cons e rest ih =>
    obtain ⟨k₁, v₁⟩ := e
    by_cases h : k₁ = k
    · simp [objGet, h]
    · simp [objGet, h, List.map_cons, List.mem_cons, ih, Ne.symm h]

theorem objSet_append {β : Type} {k : String} {l : List (String × β)}
    (h : objGet k l = none) (v : β) : objSet k v l = l ++ [(k, v)] := by
  induction l with
  | nil => simp [objSet]
  | cons e rest ih =>
    obtain ⟨k₁, v₁⟩ := e
    by_cases h₁ : k₁ = k
    · simp [objGet, h₁] at h
    · simp [objGet, h₁] at h
      simp [objSet, h₁, ih h]

theorem sumCounts_objSet_none {k : String} {l : List (String × Tally)}
    (h : objGet k l = none) (v : Tally) :
    sumCounts (objSet k v l) = sumCounts l + v.count := by
  rw [objSet_append h]
  simp [sumCounts]

theorem sumCounts_objSet_some {k : String} {l : List (String × Tally)} {w : Tally}
    (h : objGet k l = some w) (v : Tally) :
    sumCounts (objSet k v l) + w.count = sumCounts l + v.count := by
  induction l with
  | nil => simp [objGet] at h
  | cons e rest ih =>
    obtain ⟨k₁, v₁⟩ := e
    by_cases h₁ : k₁ = k
    · simp [objGet, h₁] at h
      subst h
      simp [objSet, h₁, sumCounts]
      omega
    · simp [objGet, h₁] at h
      have h₂ := ih h
      simp [objSet, h₁, sumCounts] at h₂ ⊢
      omega


theorem polls_joinParticipant (sid sn : String) (s : ServerState) :
    (joinParticipant sid sn s).2.polls = s.polls := by
  unfold joinParticipant
  repeat' split
  all_goals rfl

theorem polls_joinParticipantSocket (sid sn : String) (s : ServerState) :
    (joinParticipantSocket sid sn s).2.polls = s.polls := by
  unfold joinParticipantSocket
  repeat' split
  all_goals rfl

theorem polls_sendMessage (m sn sr sid : String) (s : ServerState) :
    (sendMessage m sn sr sid s).polls = s.polls := by
  unfold sendMessage
  repeat' split
  all_goals rfl

theorem polls_kickParticipant (sid : String) (s : ServerState) :
    (kickParticipant sid s).polls = s.polls := rfl

theorem polls_disconnectStudent (sid : String) (s : ServerState) :
    (disconnectStudent sid s).polls = s.polls := rfl

theorem kicked_createPoll (q : String) (opts : List String) (d : Int)
    (tid tn : String) (ca : Int) (pid : String) (s : ServerState) :
    (createPoll q opts d tid tn ca pid s).2.kickedOutStudents = s.kickedOutStudents := by
  unfold createPoll
  repeat' split
  all_goals rfl

theorem kicked_startPoll (pid tid : String) (s : ServerState) :
    (startPoll pid tid s).2.kickedOutStudents = s.kickedOutStudents := by
  unfold startPoll
  repeat' split
  all_goals rfl

theorem kicked_submitResponse (pid sid sn opt : String) (s : ServerState) :
    (submitResponse pid sid sn opt s).2.kickedOutStudents = s.kickedOutStudents := by
  unfold submitResponse
  repeat' split
  all_goals rfl

theorem kicked_endPollState (pid : String) (s : ServerState) :
    (endPollState pid s).kickedOutStudents = s.kickedOutStudents := by
  unfold endPollState
  repeat' split
  all_goals rfl

theorem kicked_tick (pid : String) (s : ServerState) :
    (tick pid s).kickedOutStudents = s.kickedOutStudents := by
  unfold tick
  split
  · rfl
  · dsimp only
    split
    · simp [kicked_endPollState]
    · rfl

theorem kicked_joinParticipant (sid sn : String) (s : ServerState) :
    (joinParticipant sid sn s).2.kickedOutStudents = s.kickedOutStudents := by
  unfold joinParticipant
  repeat' split
  all_goals rfl

theorem kicked_joinParticipantSocket (sid sn : String) (s : ServerState) :
    (joinParticipantSocket sid sn s).2.kickedOutStudents = s.kickedOutStudents := by
  unfold joinParticipantSocket
  repeat' split
  all_goals rfl

theorem kicked_sendMessage (m sn sr sid : String) (s : ServerState) :
    (sendMessage m sn sr sid s).kickedOutStudents = s.kickedOutStudents := by
  unfold sendMessage
  repeat' split
  all_goals rfl

theorem kicked_disconnectStudent (sid : String) (s : ServerState) :
    (disconnectStudent sid s).kickedOutStudents = s.kickedOutStudents := rfl

theorem mem_setAdd {x k : String} {l : List String} (h : x ∈ l) : x ∈ setAdd k l := by
  unfold setAdd
  split
  · exact h
  · exact List.mem_append_left _ h



theorem endPollCalc_isActive (p : Poll) : (endPollCalc p).isActive = false := rfl

theorem endPollCalc_ended (p : Poll) : (endPollCalc p).ended = true := rfl

theorem endPollCalc_responses (p : Poll) : (endPollCalc p).responses = p.responses := rfl

theorem endPollCalc_results (p : Poll) : (endPollCalc p).results = p.results := rfl

theorem objGet_polls_createPoll {pid pid₁ : String} (h : pid ≠ pid₁) (q : String)
    (opts : List String) (d : Int) (tid tn : String) (ca : Int) (s : ServerState) :
    objGet pid (createPoll q opts d tid tn ca pid₁ s).2.polls = objGet pid s.polls := by
  unfold createPoll
  repeat' split
  all_goals first
    | rfl
    | exact objGet_objSet_ne (Ne.symm h) _ _

theorem objGet_polls_startPoll {pid pid₂ : String} (h : pid ≠ pid₂) (tid : String)
    (s : ServerState) :
    objGet pid (startPoll pid₂ tid s).2.polls = objGet pid s.polls := by
  unfold startPoll
  repeat' split
  all_goals first
    | rfl
    | exact objGet_objSet_ne (Ne.symm h) _ _

theorem objGet_polls_tick {pid pid₂ : String} (h : pid ≠ pid₂) (s : ServerState) :
    objGet pid (tick pid₂ s).polls = objGet pid s.polls := by
  unfold tick
  split
  · rfl
  · dsimp only
    split
    · unfold endPollState
      split
      · rw [objGet_objSet_ne (Ne.symm h)]
      · dsimp only
        rw [objGet_objSet_ne (Ne.symm h), objGet_objSet_ne (Ne.symm h)]
    · rw [objGet_objSet_ne (Ne.symm h)]

theorem submit_flags {pid pid₂ sid sn opt : String} {s : ServerState} {poll : Poll}
    (h : objGet pid s.polls = some poll) :
    ∃ poll₁, objGet pid (submitResponse pid₂ sid sn opt s).2.polls = some poll₁ ∧
      poll₁.ended = poll.ended ∧ poll₁.isActive = poll.isActive := by
  unfold submitResponse
  split
  · exact ⟨poll, h, rfl, rfl⟩
  · split
    · exact ⟨poll, h, rfl, rfl⟩
    · rename_i poll₂ heq
      split
      · exact ⟨poll, h, rfl, rfl⟩
      · split
        · exact ⟨poll, h, rfl, rfl⟩
        · split
          · exact ⟨poll, h, rfl, rfl⟩
          · dsimp only
            by_cases hpid : pid₂ = pid
            · subst hpid
              rw [h] at heq
              cases heq
              exact ⟨_, objGet_objSet_self _ _ _, rfl, rfl⟩
            · exact ⟨poll, by rw [objGet_objSet_ne hpid]; exact h, rfl, rfl⟩

theorem startPoll_wrongTeacher {pid tid : String} {s : ServerState} {poll : Poll}
    (h : objGet pid s.polls = some poll) (ht : poll.teacherId ≠ tid) :
    startPoll pid tid s = (.error .ForbiddenError, s) := by
  simp only [startPoll, h]
  rw [if_pos ht]

theorem startPoll_activeConflict {pid tid : String} {s : ServerState} {poll : Poll}
    (h : objGet pid s.polls = some poll) (ha : poll.isActive = true) :
    (startPoll pid tid s).2 = s := by
  simp only [startPoll, h]
  by_cases ht : poll.teacherId ≠ tid
  · rw [if_pos ht]
  · rw [if_neg ht, if_pos ha]

theorem startPoll_restart {pid tid : String} {s : ServerState} {poll : Poll}
    (h : objGet pid s.polls = some poll) (hact : poll.isActive = false)
    (htid : poll.teacherId = tid) :
    ∃ poll₁, startPoll pid tid s =
        (.ok poll₁, { s with polls := objSet pid poll₁ s.polls, chatMessages := [] }) ∧
      poll₁.isActive = true ∧ poll₁.ended = false ∧ poll₁.responses = [] := by
  simp only [startPoll, h]
  rw [if_neg (by simp [htid]), if_neg (by simp [hact])]
  exact ⟨_, rfl, rfl, rfl, rfl⟩

theorem tick_expire {pid : String} {s : ServerState} {poll : Poll}
    (h : objGet pid s.polls = some poll) (hexp : poll.timeLeft - 1 ≤ 0) :
    objGet pid (tick pid s).polls =
      some (endPollCalc { poll with timeLeft := poll.timeLeft - 1 }) := by
  simp only [tick, h]
  dsimp only
  rw [if_pos hexp]
  unfold endPollState
  simp only [objGet_objSet_self]

theorem tick_noExpire {pid : String} {s : ServerState} {poll : Poll}
    (h : objGet pid s.polls = some poll) (hexp : ¬ poll.timeLeft - 1 ≤ 0) :
    objGet pid (tick pid s).polls = some { poll with timeLeft := poll.timeLeft - 1 } := by
  simp only [tick, h]
  dsimp only
  rw [if_neg hexp]
  exact objGet_objSet_self _ _ _

theorem join_kicked {sid sn : String} {s : ServerState}
    (h : sid ∈ s.kickedOutStudents) (h₁ : sid ≠ "") (h₂ : sn ≠ "") :
    joinParticipant sid sn s = (.error .ForbiddenError, s) := by
  unfold joinParticipant
  rw [if_neg (by simp [h₁, h₂]), if_pos h]

theorem joinSocket_kicked {sid sn : String} {s : ServerState}
    (h : sid ∈ s.kickedOutStudents) :
    joinParticipantSocket sid sn s = (true, s) := by
  unfold joinParticipantSocket
  rw [if_pos h]

theorem submit_kicked {pid sid sn opt : String} {s : ServerState}
    (h : sid ∈ s.kickedOutStudents) :
    submitResponse pid sid sn opt s = (.error .ForbiddenError, s) := by
  unfold submitResponse
  rw [if_pos h]

theorem submit_duplicate {pid sid sn opt : String} {s : ServerState} {poll : Poll}
    (h : objGet pid s.polls = some poll) (ha : poll.isActive = true)
    (hr : (objGet sid poll.responses).isSome = true)
    (hk : sid ∉ s.kickedOutStudents) (ho : opt ∈ poll.options) :
    submitResponse pid sid sn opt s = (.error .ConflictError, s) := by
  unfold submitResponse
  rw [if_neg hk]
  simp only [h]
  rw [if_neg (by simp [ha]), if_neg (by simp [ho]), if_pos hr]

theorem submit_error_state (pid sid sn opt : String) (s : ServerState) :
    (∃ e, (submitResponse pid sid sn opt s).1 = Except.error e) →
    (submitResponse pid sid sn opt s).2 = s := by
  unfold submitResponse
  repeat' split
  all_goals intro h
  all_goals try rfl
  all_goals obtain ⟨e, he⟩ := h
  all_goals dsimp only at he
  all_goals cases he

theorem step_kicked_mono {s s₁ : ServerState} (h : Step s s₁) :
    ∀ x ∈ s.kickedOutStudents, x ∈ s₁.kickedOutStudents := by
  intro x hx
  cases h with
  | create q opts d tid tn ca pid s₂ fresh => rw [kicked_createPoll]; exact hx
  | start pid tid s₂ => rw [kicked_startPoll]; exact hx
  | submit pid sid sname opt s₂ => rw [kicked_submitResponse]; exact hx
  | timerTick pid s₂ => rw [kicked_tick]; exact hx
  | join sid sname s₂ => rw [kicked_joinParticipant]; exact hx
  | joinSocket sid sname s₂ => rw [kicked_joinParticipantSocket]; exact hx
  | chat msg sname srole sid s₂ => rw [kicked_sendMessage]; exact hx
  | kick sid s₂ => exact mem_setAdd hx
  | disconnect sid s₂ => rw [kicked_disconnectStudent]; exact hx



theorem createPoll_validation (q : String) (opts : List String) (d : Int)
    (tid tn : String) (ca : Int) (pid : String) (s : ServerState) :
    ((createPoll q opts d tid tn ca pid s).1 = .error .ValidationError ↔
      (q = "" ∨ opts.length < 2) ∨ (tid = "" ∨ tn = "")) := by
  unfold createPoll
  by_cases h₁ : q = "" ∨ opts.length < 2
  · simp [h₁]
  · by_cases h₂ : tid = "" ∨ tn = ""
    · simp [h₁, h₂]
    · by_cases h₃ : currentPollActive s
      · simp [h₁, h₂, h₃]
      · simp [h₁, h₂, h₃]

theorem createPoll_ok {q : String} {opts : List String} {d : Int} {tid tn : String}
    {ca : Int} {pid : String} {s : ServerState} {p : Poll}
    (h : (createPoll q opts d tid tn ca pid s).1 = .ok p) :
    p = { id := pid, question := jsTrim q,
          options := (opts.map jsTrim).filter (fun o => o.length > 0),
          duration := min (max d 10) 300,
          correctAnswer := max 0 (min ca ((opts.length : Int) - 1)),
          isActive := false, responses := [], results := [], timeLeft := d,
          teacherId := tid, teacherName := tn, finalResults := none,
          summary := none, ended := false } ∧
      ¬(q = "" ∨ opts.length < 2) ∧ ¬(tid = "" ∨ tn = "") := by
  unfold createPoll at h
  split at h
  · simp at h
  · rename_i h₁
    split at h
    · simp at h
    · rename_i h₂
      split at h
      · simp at h
      · dsimp only at h
        cases h
        exact ⟨rfl, h₁, h₂⟩

theorem stateWF_objSet {s : ServerState} (hWF : StateWF s) {pid : String} {p : Poll}
    (hp : PollWF p) :
    ∀ pid₁ p₁, objGet pid₁ (objSet pid p s.polls) = some p₁ → PollWF p₁ := by
  intro pid₁ p₁ h
  by_cases he : pid = pid₁
  · subst he
    rw [objGet_objSet_self] at h
    cases h
    exact hp
  · rw [objGet_objSet_ne he] at h
    exact hWF pid₁ p₁ h

theorem stateWF_createPoll {s : ServerState} (hWF : StateWF s) (q : String)
    (opts : List String) (d : Int) (tid tn : String) (ca : Int) (pid : String) :
    StateWF (createPoll q opts d tid tn ca pid s).2 := by
  intro pid₁ p₁ h
  unfold createPoll at h
  split at h
  · exact hWF pid₁ p₁ h
  · split at h
    · exact hWF pid₁ p₁ h
    · split at h
      · exact hWF pid₁ p₁ h
      · dsimp only at h
        refine stateWF_objSet hWF ?_ pid₁ p₁ h
        exact ⟨by simp, rfl⟩

theorem tallyZero_foldl (opts : List String) (acc : List (String × Tally))
    (h : ∀ e ∈ acc, e.2.count = 0) :
    ∀ e ∈ opts.foldl (fun a o => objSet o { count := 0, participants := [] } a) acc,
      e.2.count = 0 := by
  induction opts generalizing acc with
  | nil => exact h
  | cons o rest ih =>
    intro e he
    refine ih _ ?_ e he
    intro e₁ he₁
    rcases mem_objSet he₁ with h₁ | h₁
    · exact h e₁ h₁
    · simp [h₁]

theorem sumCounts_zero {l : List (String × Tally)} (h : ∀ e ∈ l, e.2.count = 0) :
    sumCounts l = 0 := by
  unfold sumCounts
  induction l with
  | nil => rfl
  | cons e rest ih =>
    simp only [List.map_cons, List.sum_cons]
    rw [h e (List.mem_cons_self e rest), ih (fun x hx => h x (List.mem_cons_of_mem e hx))]

theorem stateWF_startPoll {s : ServerState} (hWF : StateWF s) (pid tid : String) :
    StateWF (startPoll pid tid s).2 := by
  intro pid₁ p₁ h
  unfold startPoll at h
  split at h
  · exact hWF pid₁ p₁ h
  · split at h
    · exact hWF pid₁ p₁ h
    · split at h
      · exact hWF pid₁ p₁ h
      · dsimp only at h
        refine stateWF_objSet hWF ?_ pid₁ p₁ h
        refine ⟨by simp, ?_⟩
        dsimp only
        rw [sumCounts_zero (tallyZero_foldl _ _ (by simp))]
        rfl

theorem stateWF_submitResponse {s : ServerState} (hWF : StateWF s)
    (pid sid sn opt : String) : StateWF (submitResponse pid sid sn opt s).2 := by
  intro pid₁ p₁ h
  unfold submitResponse at h
  split at h
  · exact hWF pid₁ p₁ h
  · split at h
    · exact hWF pid₁ p₁ h
    · rename_i poll heq
      split at h
      · exact hWF pid₁ p₁ h
      · split at h
        · exact hWF pid₁ p₁ h
        · split at h
          · exact hWF pid₁ p₁ h
          · rename_i hdup
            dsimp only at h
            refine stateWF_objSet hWF ?_ pid₁ p₁ h
            obtain ⟨hnd, hsum⟩ := hWF pid poll heq
            have hnone : objGet sid poll.responses = none := by
              cases hcase : objGet sid poll.responses with
              | none => rfl
              | some r => rw [hcase] at hdup; simp at hdup
            have hmem : sid ∉ poll.responses.map Prod.fst := objGet_eq_none.mp hnone
            constructor
            · dsimp only
              rw [objSet_append hnone]
              simp [List.nodup_append, hnd, hmem]
            · dsimp only
              cases hcase : objGet opt poll.results with
              | none =>
                dsimp only
                rw [sumCounts_objSet_none hcase, objSet_append hnone]
                simp [hsum]
              | some w =>
                dsimp only
                have hs := sumCounts_objSet_some hcase
                  { count := w.count + 1, participants := w.participants ++ [(sid, sn)] }
                dsimp only at hs
                rw [objSet_append hnone]
                simp only [List.length_append, List.length_cons, List.length_nil]
                omega

theorem stateWF_endPollState {s : ServerState} (hWF : StateWF s) (pid : String) :
    StateWF (endPollState pid s) := by
  intro pid₁ p₁ h
  unfold endPollState at h
  split at h
  · exact hWF pid₁ p₁ h
  · rename_i poll heq
    dsimp only at h
    refine stateWF_objSet hWF ?_ pid₁ p₁ h
    have hp := hWF pid poll heq
    unfold PollWF at hp ⊢
    rw [endPollCalc_responses, endPollCalc_results]
    exact hp

theorem stateWF_tick {s : ServerState} (hWF : StateWF s) (pid : String) :
    StateWF (tick pid s) := by
  unfold tick
  split
  · exact hWF
  · rename_i poll heq
    dsimp only
    split
    · apply stateWF_endPollState _ pid
      intro pid₁ p₁ h
      refine stateWF_objSet hWF ?_ pid₁ p₁ h
      exact hWF pid poll heq
    · intro pid₁ p₁ h
      dsimp only at h
      refine stateWF_objSet hWF ?_ pid₁ p₁ h
      exact hWF pid poll heq

theorem stateWF_polls_eq {s s₁ : ServerState} (hWF : StateWF s)
    (h : s₁.polls = s.polls) : StateWF s₁ :=
  fun pid p hp => hWF pid p (h ▸ hp)

theorem stateWF_step {s s₁ : ServerState} (hWF : StateWF s) (h : Step s s₁) :
    StateWF s₁ := by
  cases h with
  | create q opts d tid tn ca pid _ fresh => exact stateWF_createPoll hWF q opts d tid tn ca pid
  | start pid tid _ => exact stateWF_startPoll hWF pid tid
  | submit pid sid sname opt _ => exact stateWF_submitResponse hWF pid sid sname opt
  | timerTick pid _ => exact stateWF_tick hWF pid
  | join sid sname _ => exact stateWF_polls_eq hWF (polls_joinParticipant sid sname s)
  | joinSocket sid sname _ => exact stateWF_polls_eq hWF (polls_joinParticipantSocket sid sname s)
  | chat msg sname srole sid _ => exact stateWF_polls_eq hWF (polls_sendMessage msg sname srole sid s)
  | kick sid _ => exact stateWF_polls_eq hWF rfl
  | disconnect sid _ => exact stateWF_polls_eq hWF rfl

theorem stateWF_reachable {s : ServerState} (h : Reachable s) : StateWF s := by
  induction h with
  | init =>
    intro pid p hp
    simp [initialState, objGet] at hp
  | step hr hst ih => exact stateWF_step ih hst


theorem tick_kick_comm (pid sid : String) (s : ServerState) :
    tick pid (kickParticipant sid s) = kickParticipant sid (tick pid s) := by
  unfold tick kickParticipant endPollState
  dsimp only
  cases hc : objGet pid s.polls with
  | none => rfl
  | some poll =>
    dsimp only
    split
    · simp only [objGet_objSet_self]
    · rfl

theorem reachA14 : Reachable sA14 := by
  have h1 : Reachable sA1 :=
    Reachable.init.step (Step.create "q" ["A", "B"] 10 "t" "T" 0 "p1" initialState rfl)
  have h2 : Reachable sA2 := h1.step (Step.start "p1" "t" sA1)
  have h3 : Reachable sA3 := h2.step (Step.submit "p1" "S1" "N1" "A" sA2)
  have h4 : Reachable sA4 := h3.step (Step.submit "p1" "S2" "N2" "B" sA3)
  have h5 : Reachable sA5 := h4.step (Step.timerTick "p1" sA4)
  have h6 : Reachable sA6 := h5.step (Step.timerTick "p1" sA5)
  have h7 : Reachable sA7 := h6.step (Step.timerTick "p1" sA6)
  have h8 : Reachable sA8 := h7.step (Step.timerTick "p1" sA7)
  have h9 : Reachable sA9 := h8.step (Step.timerTick "p1" sA8)
  have h10 : Reachable sA10 := h9.step (Step.timerTick "p1" sA9)
  have h11 : Reachable sA11 := h10.step (Step.timerTick "p1" sA10)
  have h12 : Reachable sA12 := h11.step (Step.timerTick "p1" sA11)
  have h13 : Reachable sA13 := h12.step (Step.timerTick "p1" sA12)
  exact h13.step (Step.timerTick "p1" sA13)



/-- C1: the claim "at most one poll is Active in any reachable state" fails on the
code: createPoll only rejects while the CURRENT poll is active and startPoll only
checks the target poll itself, so create p1, create p2 (p1 still a draft),
start p1, start p2 is a reachable sequence that leaves two isActive polls in the
store.  This contradicts the stated invariant and the create-endpoint's own
conflict rule, so it is a code bug, witnessed here by evaluation. -/
theorem C1_two_active_polls : Reachable sB4 ∧ activeCount sB4 = 2 := by
  constructor
  · have h1 : Reachable sB1 :=
      Reachable.init.step (Step.create "q" ["A", "B"] 60 "t" "T" 0 "p1" initialState rfl)
    have h2 : Reachable sB2 := h1.step (Step.create "q" ["A", "B"] 60 "t" "T" 0 "p2" sB1 rfl)
    have h3 : Reachable sB3 := h2.step (Step.start "p1" "t" sB2)
    exact h3.step (Step.start "p2" "t" sB3)
  · decide

/-- C2 counterexample: after trace A expires p1 it is Ended, yet startPoll on p1
by its creator succeeds and re-activates it — Ended is not terminal. -/
theorem C2_cex : pollA.ended = true ∧ pollA.isActive = false ∧
    (startPoll "p1" "t" sA14).1.isOk = true ∧
    (objGet "p1" (startPoll "p1" "t" sA14).2.polls).map Poll.isActive = some true := by
  refine ⟨?_, ?_, ?_, ?_⟩ <;> decide

/-- C2 (amended): the only transition out of Active is timer-driven expiry, but
Ended is NOT terminal: a startPoll call on an ended poll's id by its creator
succeeds and transitions it back to Active, resetting its responses; every other
operation leaves each poll's lifecycle flags unchanged (a fresh-id create, a
start or tick aimed at another poll, and the five non-poll operations leave the
poll untouched; submitResponse preserves ended/isActive; startPoll on an active
or foreign poll changes nothing; a tick ends its poll exactly on expiry). -/
theorem C2_ended_not_terminal :
    (∀ s pid tid poll, objGet pid s.polls = some poll → poll.ended = true →
      poll.isActive = false → poll.teacherId = tid →
      ∃ poll₁, startPoll pid tid s =
          (.ok poll₁, { s with polls := objSet pid poll₁ s.polls, chatMessages := [] }) ∧
        poll₁.isActive = true ∧ poll₁.ended = false ∧ poll₁.responses = []) ∧
    (∀ s q opts d tid tn ca pid₁ pid, pid ≠ pid₁ →
      objGet pid (createPoll q opts d tid tn ca pid₁ s).2.polls = objGet pid s.polls) ∧
    (∀ s pid pid₂ tid, pid ≠ pid₂ →
      objGet pid (startPoll pid₂ tid s).2.polls = objGet pid s.polls) ∧
    (∀ s pid pid₂, pid ≠ pid₂ → objGet pid (tick pid₂ s).polls = objGet pid s.polls) ∧
    (∀ s pid₂ sid sn opt pid poll, objGet pid s.polls = some poll →
      ∃ poll₁, objGet pid (submitResponse pid₂ sid sn opt s).2.polls = some poll₁ ∧
        poll₁.ended = poll.ended ∧ poll₁.isActive = poll.isActive) ∧
    (∀ s sid sn, (joinParticipant sid sn s).2.polls = s.polls) ∧
    (∀ s sid sn, (joinParticipantSocket sid sn s).2.polls = s.polls) ∧
    (∀ s m sn sr sid, (sendMessage m sn sr sid s).polls = s.polls) ∧
    (∀ s sid, (kickParticipant sid s).polls = s.polls) ∧
    (∀ s sid, (disconnectStudent sid s).polls = s.polls) ∧
    (∀ s pid tid poll, objGet pid s.polls = some poll → poll.isActive = true →
      (startPoll pid tid s).2 = s) ∧
    (∀ s pid tid poll, objGet pid s.polls = some poll → poll.teacherId ≠ tid →
      startPoll pid tid s = (.error .ForbiddenError, s)) ∧
    (∀ s pid poll, objGet pid s.polls = some poll →
      (poll.timeLeft - 1 ≤ 0 →
        objGet pid (tick pid s).polls =
          some (endPollCalc { poll with timeLeft := poll.timeLeft - 1 }) ∧
        (endPollCalc { poll with timeLeft := poll.timeLeft - 1 }).isActive = false ∧
        (endPollCalc { poll with timeLeft := poll.timeLeft - 1 }).ended = true) ∧
      (¬ poll.timeLeft - 1 ≤ 0 →
        objGet pid (tick pid s).polls = some { poll with timeLeft := poll.timeLeft - 1 })) :=
  ⟨fun _ _ _ _ h _ ha ht => startPoll_restart h ha ht,
   fun s _ opts d tid tn ca _ _ h => objGet_polls_createPoll h _ opts d tid tn ca s,
   fun s _ _ tid h => objGet_polls_startPoll h tid s,
   fun s _ _ h => objGet_polls_tick h s,
   fun _ _ _ _ _ _ _ h => submit_flags h,
   fun s sid sn => polls_joinParticipant sid sn s,
   fun s sid sn => polls_joinParticipantSocket sid sn s,
   fun s m sn sr sid => polls_sendMessage m sn sr sid s,
   fun s sid => polls_kickParticipant sid s,
   fun s sid => polls_disconnectStudent sid s,
   fun _ _ _ _ h ha => startPoll_activeConflict h ha,
   fun _ _ _ _ h ht => startPoll_wrongTeacher h ht,
   fun _ _ _ h => ⟨fun hexp => ⟨tick_expire h hexp, rfl, rfl⟩,
                   fun hexp => tick_noExpire h hexp⟩⟩

/-- C2 witness: the restart clause instantiated on the expired trace-A state. -/
theorem C2_witness :
    ∃ poll₁, startPoll "p1" "t" sA14 =
        (.ok poll₁, { sA14 with polls := objSet "p1" poll₁ sA14.polls, chatMessages := [] }) ∧
      poll₁.isActive = true ∧ poll₁.ended = false ∧ poll₁.responses = [] :=
  C2_ended_not_terminal.1 sA14 "p1" "t" pollA rfl rfl rfl rfl

/-- C3 counterexample: the request options [A, blank] pass validation (raw length
2), but the created poll keeps only 1 non-empty option — createPoll does NOT
reject inputs with fewer than 2 non-empty entries after trimming. -/
theorem C3_cex :
    (createPoll "q" ["A", " "] 60 "t" "T" 0 "p1" initialState).1 = .ok pollC3 ∧
    pollC3.options = ["A"] ∧ pollC3.options.length < 2 := by
  refine ⟨rfl, ?_, ?_⟩ <;> decide

/-- C3 (amended): createPoll rejects with ValidationError exactly when the
question is empty, the RAW options list has fewer than 2 entries (blank entries
count), or the creator identity is missing; a created poll's options are the
trimmed non-empty entries of the request, which may number fewer than 2. -/
theorem C3_validation :
    ∀ q opts d tid tn ca pid s,
      ((createPoll q opts d tid tn ca pid s).1 = .error .ValidationError ↔
        q = "" ∨ opts.length < 2 ∨ tid = "" ∨ tn = "") ∧
      (∀ p, (createPoll q opts d tid tn ca pid s).1 = .ok p →
        p.options = (opts.map jsTrim).filter (fun o => o.length > 0) ∧
        p.question = jsTrim q) :=
  fun q opts d tid tn ca pid s =>
    ⟨by rw [createPoll_validation]; tauto,
     fun p h => by rw [(createPoll_ok h).1]; exact ⟨rfl, rfl⟩⟩

/-- C3 witness: an empty question is rejected; the blank-option request of the
counterexample yields a 1-option poll via the ok clause. -/
theorem C3_witness :
    (createPoll "" ["A", "B"] 60 "t" "T" 0 "p1" initialState).1 = .error .ValidationError ∧
    pollC3.options = ["A"] :=
  ⟨((C3_validation "" ["A", "B"] 60 "t" "T" 0 "p1" initialState).1).mpr (Or.inl rfl),
   (((C3_validation "q" ["A", " "] 60 "t" "T" 0 "p1" initialState).2) pollC3 rfl).1.trans
     (by decide)⟩

/-- C4 counterexample: S1 already responded to the active poll p1, but after
being kicked the second submit fails with ForbiddenError (the ejected check runs
first), not ConflictError. -/
theorem C4_cex :
    (objGet "p1" sAkick.polls).map Poll.isActive = some true ∧
    (objGet "p1" sAkick.polls).map (fun p => (objGet "S1" p.responses).isSome) = some true ∧
    (submitResponse "p1" "S1" "N1" "B" sAkick).1 = .error .ForbiddenError ∧
    (Except.error .ForbiddenError : Except ApiError Bool) ≠ .error .ConflictError := by
  refine ⟨?_, ?_, rfl, ?_⟩
  · decide
  · decide
  · intro h
    cases h

/-- C4 (amended): a second submitResponse by a participant who already has a
recorded response fails with ConflictError provided the participant is not
ejected and the selected option is among the poll's options (otherwise the
earlier Forbidden/Validation checks fire); and every rejected submitResponse,
whatever its error, leaves the whole state — in particular the responses
mapping and every tally — exactly unchanged. -/
theorem C4_duplicate_conflict :
    (∀ s pid sid sn opt poll, objGet pid s.polls = some poll → poll.isActive = true →
      (objGet sid poll.responses).isSome = true → sid ∉ s.kickedOutStudents →
      opt ∈ poll.options →
      submitResponse pid sid sn opt s = (.error .ConflictError, s)) ∧
    (∀ s pid sid sn opt, (∃ e, (submitResponse pid sid sn opt s).1 = Except.error e) →
      (submitResponse pid sid sn opt s).2 = s) :=
  ⟨fun _ _ _ _ _ _ h ha hr hk ho => submit_duplicate h ha hr hk ho,
   fun s pid sid sn opt h => submit_error_state pid sid sn opt s h⟩

/-- C4 witness: the duplicate clause on trace A (S1 re-submits a different
option) and the no-mutation clause on the rejected post-kick submit. -/
theorem C4_witness :
    submitResponse "p1" "S1" "N1" "B" sA3 = (.error .ConflictError, sA3) ∧
    (submitResponse "p1" "S1" "N1" "B" sAkick).2 = sAkick :=
  ⟨C4_duplicate_conflict.1 sA3 "p1" "S1" "N1" "B" pollA3 rfl rfl rfl (by decide) (by decide),
   C4_duplicate_conflict.2 sAkick "p1" "S1" "N1" "B" ⟨.ForbiddenError, rfl⟩⟩

/-- C5: in every reachable state, every Ended poll's tally counts sum to the
number of distinct participant ids in its responses mapping. -/
theorem C5_ended_tally_sum {s : ServerState} (hr : Reachable s) (pid : String)
    {poll : Poll} (h : objGet pid s.polls = some poll) (_hend : poll.ended = true) :
    sumCounts poll.results = (poll.responses.map Prod.fst).dedup.length := by
  obtain ⟨hnd, hsum⟩ := stateWF_reachable hr pid poll h
  rw [List.Nodup.dedup hnd, List.length_map, hsum]

/-- C5 witness: the invariant instantiated on the Ended poll of trace A. -/
theorem C5_witness :
    sumCounts pollA.results = (pollA.responses.map Prod.fst).dedup.length :=
  C5_ended_tally_sum reachA14 "p1" rfl rfl

/-- C6 counterexample: request options [A, B, blank] with correctAnswer 5 —
clamping uses the raw length 3, producing index 2, but the created poll has
only 2 options, so the stored index is outside [0, options.length-1]. -/
theorem C6_cex :
    (createPoll "q" ["A", "B", " "] 60 "t" "T" 5 "p1" initialState).1 = .ok pollC6 ∧
    pollC6.correctAnswer = 2 ∧ pollC6.options.length = 2 := by
  refine ⟨rfl, ?_, ?_⟩ <;> decide

/-- C6 (amended): the created poll's duration is the requested duration clamped
into [10,300] (5 becomes 10, 1000 becomes 300); correctAnswerIndex is the
requested index clamped into [0, RAW options length - 1] — the pre-trim length —
which coincides with [0, created options.length - 1] whenever every requested
option is non-blank after trimming. -/
theorem C6_clamping :
    ∀ q opts d tid tn ca pid s p, (createPoll q opts d tid tn ca pid s).1 = .ok p →
      (10 ≤ p.duration ∧ p.duration ≤ 300 ∧
        (d ≤ 10 → p.duration = 10) ∧ (300 ≤ d → p.duration = 300) ∧
        (10 ≤ d → d ≤ 300 → p.duration = d)) ∧
      (0 ≤ p.correctAnswer ∧ p.correctAnswer ≤ (opts.length : Int) - 1) ∧
      ((∀ o ∈ opts, (jsTrim o).length > 0) →
        p.correctAnswer ≤ (p.options.length : Int) - 1) := by
  intro q opts d tid tn ca pid s p h
  obtain ⟨hp, hval, _⟩ := createPoll_ok h
  subst hp
  have hlen : 2 ≤ opts.length := by
    rcases Nat.lt_or_ge opts.length 2 with h₂ | h₂
    · exact absurd (Or.inr h₂) hval
    · exact h₂
  have hlen2 : (2 : Int) ≤ (opts.length : Int) := by exact_mod_cast hlen
  refine ⟨?_, ?_, ?_⟩
  · dsimp only
    omega
  · dsimp only
    omega
  · intro hall
    dsimp only
    have hfil : (opts.map jsTrim).filter (fun o => o.length > 0) = opts.map jsTrim := by
      rw [List.filter_eq_self]
      intro a ha
      obtain ⟨o, ho, rfl⟩ := List.mem_map.mp ha
      simpa using hall o ho
    rw [hfil, List.length_map]
    omega

/-- C6 witness: duration 5 clamps to 10 and correctAnswer -1 clamps into range. -/
theorem C6_witness :
    pollC6b.duration = 10 ∧ 0 ≤ pollC6b.correctAnswer ∧
      pollC6b.correctAnswer ≤ ((["A", "B"].length : Nat) : Int) - 1 :=
  let h := C6_clamping "q" ["A", "B"] 5 "t" "T" (-1) "p1" initialState pollC6b rfl
  ⟨h.1.2.2.1 (by norm_num), h.2.1.1, h.2.1.2⟩

/-- C7: Scenario A evaluated end to end — create [A,B] correct 0 duration 10,
start, S1 answers A (correct), S2 answers B (incorrect), ten timer ticks expire
the poll; finalResults gives both options count 1 and percentage 50 with only A
marked correct, and the summary's correctPercentage is 50. -/
theorem C7_scenarioA :
    (createPoll "q" ["A", "B"] 10 "t" "T" 0 "p1" initialState).1.isOk = true ∧
    (startPoll "p1" "t" sA1).1.isOk = true ∧
    (submitResponse "p1" "S1" "N1" "A" sA2).1 = .ok true ∧
    (submitResponse "p1" "S2" "N2" "B" sA3).1 = .ok false ∧
    pollA.ended = true ∧
    pollA.finalResults = some [("A", { count := 1, percentage := 50, isCorrect := true }),
                               ("B", { count := 1, percentage := 50, isCorrect := false })] ∧
    pollA.summary = some { totalResponses := 2
                           correctResponses := 1
                           incorrectResponses := 1
                           correctPercentage := 50
                           incorrectPercentage := 50
                           correctAnswer := some "A" } := by
  refine ⟨?_, ?_, rfl, rfl, ?_, ?_, ?_⟩ <;> decide

/-- C8: ejection is permanent and monotonic — no operation removes an id from
kickedOutStudents; an ejected id is rejected with ForbiddenError by the join
endpoint (whenever the request carries an identity at all — the missing-field
check runs first), is refused by the socket join, and is rejected with
ForbiddenError by submitResponse unconditionally, with the state unchanged. -/
theorem C8_ejection_permanent :
    (∀ s s₁, Step s s₁ → ∀ x ∈ s.kickedOutStudents, x ∈ s₁.kickedOutStudents) ∧
    (∀ s sid sn, sid ∈ s.kickedOutStudents → sid ≠ "" → sn ≠ "" →
      joinParticipant sid sn s = (.error .ForbiddenError, s)) ∧
    (∀ s sid sn, sid ∈ s.kickedOutStudents → joinParticipantSocket sid sn s = (true, s)) ∧
    (∀ s pid sid sn opt, sid ∈ s.kickedOutStudents →
      submitResponse pid sid sn opt s = (.error .ForbiddenError, s)) :=
  ⟨fun _ _ h => step_kicked_mono h,
   fun _ _ _ h h₁ h₂ => join_kicked h h₁ h₂,
   fun _ _ _ h => joinSocket_kicked h,
   fun _ _ _ _ _ h => submit_kicked h⟩

/-- C8 witness: after S1 is kicked on trace A, a disconnect keeps the ejection,
and the rejoin / socket rejoin / re-submit attempts are all rejected. -/
theorem C8_witness :
    ("S1" ∈ (disconnectStudent "S1" sAkick).kickedOutStudents) ∧
    joinParticipant "S1" "N1" sAkick = (.error .ForbiddenError, sAkick) ∧
    joinParticipantSocket "S1" "N1" sAkick = (true, sAkick) ∧
    submitResponse "p1" "S1" "N1" "A" sAkick = (.error .ForbiddenError, sAkick) :=
  ⟨C8_ejection_permanent.1 sAkick (disconnectStudent "S1" sAkick)
      (Step.disconnect "S1" sAkick) "S1" (by decide),
   C8_ejection_permanent.2.1 sAkick "S1" "N1" (by decide) (by decide) (by decide),
   C8_ejection_permanent.2.2.1 sAkick "S1" "N1" (by decide),
   C8_ejection_permanent.2.2.2 sAkick "p1" "S1" "N1" "A" (by decide)⟩

/-- C9 counterexample: with no current poll the endpoint answers the early
return, which carries poll = null and a message but NO participants or
chatMessages arrays. -/
theorem C9_cex :
    getCurrentPoll initialState = .noPoll "No active poll" ∧
    (getCurrentPoll initialState).carriesRoster = false :=
  ⟨rfl, rfl⟩

/-- C9 (amended): when a current poll exists the response is the full record
with the poll, the roster and the chat log; when none exists the response is
the bare record with poll = null and a message, without those arrays. -/
theorem C9_current_shape :
    ∀ s, (s.currentPoll = none → getCurrentPoll s = .noPoll "No active poll") ∧
      (∀ pid poll, s.currentPoll = some pid → objGet pid s.polls = some poll →
        getCurrentPoll s =
          .withPoll poll (s.activeParticipants.map Prod.snd) s.chatMessages) := by
  intro s
  constructor
  · intro h
    unfold getCurrentPoll
    rw [h]
  · intro pid poll h₁ h₂
    unfold getCurrentPoll
    rw [h₁]
    dsimp only
    rw [h₂]

/-- C9 witness: the empty initial state and the trace-B state with current poll
p2 instantiate the two clauses. -/
theorem C9_witness :
    getCurrentPoll initialState = .noPoll "No active poll" ∧
    getCurrentPoll sB3 =
      .withPoll pollC9 (sB3.activeParticipants.map Prod.snd) sB3.chatMessages :=
  ⟨(C9_current_shape initialState).1 rfl,
   (C9_current_shape sB3).2 "p2" pollC9 rfl rfl⟩

/-- C10: kicking mutates only the ejected set and the roster: polls (hence every
responses mapping and tally), history, chat and the current-poll alias are
untouched, every poll lookup is unchanged, and kick commutes with the timer
tick, so a response recorded before the kick still counts at expiry. -/
theorem C10_kick_frame :
    ∀ s sid, (kickParticipant sid s).polls = s.polls ∧
      (kickParticipant sid s).pollHistory = s.pollHistory ∧
      (kickParticipant sid s).chatMessages = s.chatMessages ∧
      (kickParticipant sid s).currentPoll = s.currentPoll ∧
      (kickParticipant sid s).kickedOutStudents = setAdd sid s.kickedOutStudents ∧
      (kickParticipant sid s).activeParticipants = objDelete sid s.activeParticipants ∧
      (∀ pid, objGet pid (kickParticipant sid s).polls = objGet pid s.polls) ∧
      (∀ pid, tick pid (kickParticipant sid s) = kickParticipant sid (tick pid s)) :=
  fun s sid =>
    ⟨rfl, rfl, rfl, rfl, rfl, rfl, fun _ => rfl, fun pid => tick_kick_comm pid sid s⟩

end LivePolling
